import Mathlib

/-!
# Verification of the openclaw-agentsandbox plugin

Shallow embedding of the credential-resolution, HTTP-classification,
retry, OAuth-flow and upload-validation logic of the
`openclaw-agentsandbox` plugin (`tools.ts` / `oauth.ts`), together with
proofs of the spec's testable properties.

The embedding follows the current `tools.ts` implementation (the revision
with the `SANDBOX_API_KEY` environment check, 204 handling and the
delete-retry loop) and `oauth.ts`.
-/

namespace AgentSandbox

/-! ## String utilities

JavaScript's `String.prototype.includes` is modelled as substring search
on the character list. -/

/-- `needle` occurs as a contiguous substring of `hay`
(JS `hay.includes(needle)`). -/
def containsSeq (hay needle : List Char) : Bool :=
  needle.isPrefixOf hay ||
    match hay with
    | [] => false
    | _ :: t => containsSeq t needle

/-- String-level wrapper for `containsSeq`. -/
def strIncludes (hay needle : String) : Bool :=
  containsSeq hay.data needle.data

/-- A `List.IsInfix` witness makes `containsSeq` return `true`. -/
theorem containsSeq_of_isInfix {hay needle : List Char}
    (h : needle <:+: hay) : containsSeq hay needle = true := by
  induction hay with
  | nil =>
    rcases h with ⟨s, t, hst⟩
    have : needle = [] := by
      cases s <;> cases needle <;> simp_all
    simp [containsSeq, this, List.isPrefixOf_iff_prefix]
  | cons a hay ih =>
    rcases h with ⟨s, t, hst⟩
    cases s with
    | nil =>
      have : needle <+: a :: hay := ⟨t, by simpa using hst⟩
      simp [containsSeq, List.isPrefixOf_iff_prefix, this]
    | cons b s =>
      simp only [List.cons_append, List.cons.injEq] at hst
      have : needle <:+: hay := ⟨s, t, hst.2⟩
      simp [containsSeq, ih this]

/-! ## HTTP response model and `apiRequest`

A `fetch` response is abstracted by its status, declared content-type
header (absent header modelled as `none`, matching
`res.headers.get("content-type") ?? ""`) and body text. -/

/-- The observable part of a `fetch` response used by `apiRequest`. -/
structure HttpResponse where
  status : Nat
  contentType : Option String
  body : String
deriving DecidableEq

/-- `res.ok` in `fetch`: status in the 2xx range. -/
def respOk (r : HttpResponse) : Bool :=
  200 ≤ r.status && r.status ≤ 299

/-- Result of a successful `apiRequest`: `{}` (for 204 or an empty JSON
body), the JSON parse of a non-empty body (`JSON.parse` of the external
runtime is kept symbolic as `parsedJson`), or the raw body text. -/
inductive ApiResult where
  | emptyObj : ApiResult
  | parsedJson (text : String) : ApiResult
  | rawText (text : String) : ApiResult
deriving DecidableEq

/-- The error message `apiRequest` throws on a non-2xx status. -/
def apiErrorMsg (method endpoint : String) (status : Nat) (body : String) : String :=
  "API " ++ method ++ " " ++ endpoint ++ " failed (" ++ toString status ++ "): " ++ body

/-- `apiRequest` from `tools.ts`, restricted to its response
classification (the request construction — bearer header and JSON body —
does not influence the returned value). Mirrors: non-`ok` throws the
formatted error; 204 yields `{}`; a JSON content-type yields the parse of
the body, or `{}` when the body text is empty; otherwise the raw text. -/
def apiRequest (method endpoint : String) (r : HttpResponse) :
    Except String ApiResult :=
  let contentType := r.contentType.getD ""
  if !respOk r then
    .error (apiErrorMsg method endpoint r.status r.body)
  else if r.status == 204 then
    .ok .emptyObj
  else if strIncludes contentType "application/json" then
    .ok (if r.body ≠ "" then .parsedJson r.body else .emptyObj)
  else
    .ok (.rawText r.body)

/-- C7 (claim): classification of every `apiRequest` response: 204 gives
`{}` regardless of content-type; a JSON content-type gives the parsed
body, `{}` when the body is empty; any other 2xx content-type gives the
raw text; non-2xx throws a message embedding method, path, status and
body. -/
theorem C7_apiRequest_classification (method endpoint : String) (r : HttpResponse) :
    (respOk r = true → r.status = 204 →
      apiRequest method endpoint r = .ok .emptyObj) ∧
    (respOk r = true → r.status ≠ 204 →
      strIncludes (r.contentType.getD "") "application/json" = true →
      r.body ≠ "" →
      apiRequest method endpoint r = .ok (.parsedJson r.body)) ∧
    (respOk r = true → r.status ≠ 204 →
      strIncludes (r.contentType.getD "") "application/json" = true →
      r.body = "" →
      apiRequest method endpoint r = .ok .emptyObj) ∧
    (respOk r = true → r.status ≠ 204 →
      strIncludes (r.contentType.getD "") "application/json" = false →
      apiRequest method endpoint r = .ok (.rawText r.body)) ∧
    (respOk r = false →
      apiRequest method endpoint r =
        .error (apiErrorMsg method endpoint r.status r.body)) := by
  refine ⟨?_, ?_, ?_, ?_, ?_⟩ <;> intros <;>
    simp_all [apiRequest]

/-- Witness for C7 at concrete responses: a 204, a JSON body, an empty
JSON body, a plain-text body, and a 500 error. -/
theorem C7_apiRequest_classification_witness :
    apiRequest "DELETE" "/v1/sessions/s1"
      ⟨204, some "application/json", ""⟩ = .ok .emptyObj ∧
    apiRequest "GET" "/v1/sessions"
      ⟨200, some "application/json", "[1]"⟩ = .ok (.parsedJson "[1]") ∧
    apiRequest "GET" "/v1/sessions"
      ⟨200, some "application/json", ""⟩ = .ok .emptyObj ∧
    apiRequest "GET" "/v1/files/f1"
      ⟨200, some "text/plain", "hello"⟩ = .ok (.rawText "hello") ∧
    apiRequest "GET" "/v1/sessions"
      ⟨500, some "text/plain", "Internal Server Error"⟩ =
      .error "API GET /v1/sessions failed (500): Internal Server Error" :=
  ⟨(C7_apiRequest_classification "DELETE" "/v1/sessions/s1" _).1
      (by decide) (by decide),
   (C7_apiRequest_classification "GET" "/v1/sessions" _).2.1
      (by decide) (by decide) (by decide) (by decide),
   (C7_apiRequest_classification "GET" "/v1/sessions" _).2.2.1
      (by decide) (by decide) (by decide) (by decide),
   (C7_apiRequest_classification "GET" "/v1/files/f1" _).2.2.2.1
      (by decide) (by decide) (by decide),
   by
     have := (C7_apiRequest_classification "GET" "/v1/sessions"
       ⟨500, some "text/plain", "Internal Server Error"⟩).2.2.2.2 (by decide)
     simpa [apiErrorMsg] using this⟩

/-! ## Credential store and `getToken`

`getToken` from `tools.ts`. File reads/writes are made explicit: the
parsed `auth-profiles.json` contents are an input, the (single possible)
write-back is part of the result, and the `refreshAccessToken` network
call is an input oracle whose invocation count is recorded. JavaScript
truthiness of the optional string/number fields is modelled exactly
(`""`, `0`, `undefined` are falsy). -/

/-- JS truthiness of an optional string field. -/
def truthyStr : Option String → Bool
  | none => false
  | some s => s ≠ ""

/-- JS truthiness of an optional numeric field. -/
def truthyNum : Option Int → Bool
  | none => false
  | some n => n ≠ 0

/-- The whitespace class removed by JS `String.prototype.trim`
(ASCII whitespace plus NBSP, BOM and the Unicode line/paragraph
separators; the remaining Unicode space separators are omitted as they
never occur in environment values we reason about). -/
def jsWhitespace (c : Char) : Bool :=
  c = ' ' || c = '\t' || c = '\n' || c = '\r' ||
    c.toNat = 11 || c.toNat = 12 || c.toNat = 0xA0 ||
    c.toNat = 0x2028 || c.toNat = 0x2029 || c.toNat = 0xFEFF

/-- JS `String.prototype.trim`: strip `jsWhitespace` from both ends. -/
def jsTrim (s : String) : String :=
  ⟨((s.data.dropWhile jsWhitespace).reverse.dropWhile jsWhitespace).reverse⟩

/-- One credential record of `auth-profiles.json` (the parsed shape used
by `getToken`). -/
structure CredRecord where
  type : Option String
  access : Option String
  refresh : Option String
  expires : Option Int
  key : Option String
  email : Option String
  provider : Option String
deriving DecidableEq

/-- The parsed `auth-profiles.json` document: an optional `profiles`
object, modelled as an association list keyed by profile id. -/
structure AuthStore where
  profiles : Option (List (String × CredRecord))
deriving DecidableEq

/-- Result of `refreshAccessToken` on success (`oauth.ts`). -/
structure RefreshResult where
  accessToken : String
  refreshToken : String
  expiresAt : Int
deriving DecidableEq

/-- The inputs `getToken` reads from its environment: the
`SANDBOX_API_KEY` variable, the host config's auth-profile entries
(profile id paired with the entry's `provider` field), `ctx.agentDir`,
the parsed credential store on disk, `Date.now()`, and the outcome
`refreshAccessToken` would produce if invoked. -/
structure GetTokenEnv where
  envKey : Option String
  configProfiles : List (String × Option String)
  agentDir : Option String
  store : AuthStore
  now : Int
  refreshOutcome : Except String RefreshResult

/-- The distinct failure modes of `getToken`. -/
inductive TokenError where
  | noProfile : TokenError
  | noAgentDir : TokenError
  | missingCred (profileId : String) : TokenError
  | allExpired : TokenError
  | refreshFailed (msg : String) : TokenError
deriving DecidableEq

/-- The error message texts thrown by `getToken` (`tools.ts`). -/
def TokenError.message : TokenError → String
  | .noProfile =>
    "No auth profile for agentsandbox. Tell the user to run `openclaw models auth login --provider agentsandbox` in their terminal, or set the SANDBOX_API_KEY environment variable. Do NOT attempt the OAuth flow in this conversation — it requires a separate CLI command."
  | .noAgentDir => "agentDir missing; tool must run in an agent context."
  | .missingCred pid =>
    "Missing credential for profile " ++ pid ++ ". Tell the user to run `openclaw models auth login --provider agentsandbox` in their terminal to re-authenticate. Do NOT attempt the OAuth flow in this conversation."
  | .allExpired =>
    "All tokens expired and no refresh token available. Tell the user to run `openclaw models auth login --provider agentsandbox` in their terminal to re-authenticate. Do NOT attempt the OAuth flow in this conversation."
  | .refreshFailed m => m

/-- Observable outcome of one `getToken` call: the returned token or
thrown error, how many times `refreshAccessToken` was invoked, and the
store written back to `auth-profiles.json` (`none` when no write
happened). -/
structure GetTokenRun where
  result : Except TokenError String
  refreshCalls : Nat
  written : Option AuthStore

/-- The 5-minute expiry safety buffer (`bufferMs` in `tools.ts`). -/
def bufferMs : Int := 5 * 60 * 1000

/-- The record produced by the refresh branch: `access`, `refresh` and
`expires` overwritten with the rotated values, everything else kept. -/
def rotate (cred : CredRecord) (rr : RefreshResult) : CredRecord :=
  { cred with
    access := some rr.accessToken
    refresh := some rr.refreshToken
    expires := some rr.expiresAt }

/-- The store written back after a refresh: the whole document with the
matched profile's record replaced (the in-place mutation of `cred`
followed by serializing `store`). -/
def storeAfterRefresh (store : AuthStore) (pid : String)
    (cred : CredRecord) (rr : RefreshResult) : AuthStore :=
  ⟨store.profiles.map
    (List.map fun e => if e.1 = pid then (pid, rotate cred rr) else e)⟩

/-- Steps 1–3 of `getToken` once the credential record is in hand:
prefer the permanent `key`; else a non-expired `access`
(`cred.access && cred.expires && Date.now() < cred.expires - bufferMs`);
else exchange `refresh` and persist; else throw the all-expired error. -/
def resolveCred (store : AuthStore) (pid : String) (cred : CredRecord)
    (now : Int) (refreshOutcome : Except String RefreshResult) : GetTokenRun :=
  if truthyStr cred.key then
    ⟨.ok (cred.key.getD ""), 0, none⟩
  else if truthyStr cred.access && truthyNum cred.expires &&
      decide (now < cred.expires.getD 0 - bufferMs) then
    ⟨.ok (cred.access.getD ""), 0, none⟩
  else if truthyStr cred.refresh then
    match refreshOutcome with
    | .error m => ⟨.error (.refreshFailed m), 1, none⟩
    | .ok rr => ⟨.ok rr.accessToken, 1, some (storeAfterRefresh store pid cred rr)⟩
  else ⟨.error .allExpired, 0, none⟩

/-- `getToken` from `tools.ts`.

Mirrors, in order: the trimmed `SANDBOX_API_KEY` check; the first config
profile whose `provider` is `"agentsandbox"` (a falsy — empty — profile
id fails the `if (!profileId)` guard); the `agentDir` guard; the store
lookup (`store.profiles?.[profileId]`); then the credential resolution
steps of `resolveCred`. -/
def getToken (env : GetTokenEnv) : GetTokenRun :=
  if truthyStr (env.envKey.map jsTrim) then
    ⟨.ok ((env.envKey.map jsTrim).getD ""), 0, none⟩
  else
    match env.configProfiles.find? (fun e => e.2 == some "agentsandbox") with
    | none => ⟨.error .noProfile, 0, none⟩
    | some (pid, _) =>
      if pid = "" then ⟨.error .noProfile, 0, none⟩
      else if !truthyStr env.agentDir then ⟨.error .noAgentDir, 0, none⟩
      else
        match env.store.profiles.bind (List.lookup pid) with
        | none => ⟨.error (.missingCred pid), 0, none⟩
        | some cred => resolveCred env.store pid cred env.now env.refreshOutcome

/-- Reduction of `getToken` to `resolveCred` on the credential-store
path. -/
theorem getToken_cred (env : GetTokenEnv) (pid : String) (extra : Option String)
    (cred : CredRecord)
    (henv : truthyStr (env.envKey.map jsTrim) = false)
    (hfind : env.configProfiles.find? (fun e => e.2 == some "agentsandbox") =
      some (pid, extra))
    (hpid : pid ≠ "")
    (hdir : truthyStr env.agentDir = true)
    (hcred : env.store.profiles.bind (List.lookup pid) = some cred) :
    getToken env = resolveCred env.store pid cred env.now env.refreshOutcome := by
  simp only [getToken, henv, Bool.false_eq_true, if_false, hfind, hpid, hdir,
    hcred, Bool.not_true, ite_false]

/-- The stale-access guard is false when `access` is absent or every
stated expiry is at or past the 5-minute buffer. -/
theorem stale_guard_false (cred : CredRecord) (now : Int)
    (hacc : cred.access = none ∨
      (∀ e, cred.expires = some e → e - bufferMs ≤ now)) :
    (truthyStr cred.access && truthyNum cred.expires &&
      decide (now < cred.expires.getD 0 - bufferMs)) = false := by
  rcases hacc with h | h
  · simp [h, truthyStr]
  · cases hexp : cred.expires with
    | none => simp [hexp, truthyNum]
    | some e =>
      have := h e hexp
      simp only [hexp, Option.getD_some, Bool.and_eq_false_iff]
      right
      simpa using by omega

/-- C1 (claim): with the env override unset, a matched profile, and a
record with no key, an access token that is absent or past/inside the
5-minute buffer, and a refresh token present, `getToken` invokes the
refresh exchange exactly once, overwrites `access`/`refresh`/`expires`
in the record, writes the whole store back, and returns the new access
token. -/
theorem C1_getToken_refresh (env : GetTokenEnv) (pid : String)
    (extra : Option String) (cred : CredRecord) (rt : String)
    (rr : RefreshResult)
    (henv : truthyStr (env.envKey.map jsTrim) = false)
    (hfind : env.configProfiles.find? (fun e => e.2 == some "agentsandbox") =
      some (pid, extra))
    (hpid : pid ≠ "")
    (hdir : truthyStr env.agentDir = true)
    (hcred : env.store.profiles.bind (List.lookup pid) = some cred)
    (hkey : cred.key = none)
    (hacc : cred.access = none ∨
      (∀ e, cred.expires = some e → e - bufferMs ≤ env.now))
    (hrefresh : cred.refresh = some rt) (hrt : rt ≠ "")
    (hout : env.refreshOutcome = .ok rr) :
    getToken env =
      ⟨.ok rr.accessToken, 1,
        some (storeAfterRefresh env.store pid cred rr)⟩ := by
  rw [getToken_cred env pid extra cred henv hfind hpid hdir hcred]
  rw [resolveCred.eq_def, stale_guard_false cred env.now hacc]
  simp [hkey, truthyStr, hrefresh, hrt, hout]

/-- Witness for C1: a concrete expired record with a refresh token is
rotated and persisted. -/
theorem C1_getToken_refresh_witness :
    getToken
      { envKey := none
        configProfiles := [("agentsandbox:u@t", some "agentsandbox")]
        agentDir := some "/tmp/agent"
        store := ⟨some [("agentsandbox:u@t",
          ⟨some "oauth", some "old-access", some "refresh-token-abc",
           some 1000, none, some "u@t", some "agentsandbox"⟩)]⟩
        now := 2000000
        refreshOutcome := .ok ⟨"new-access", "new-refresh", 9000000⟩ } =
      ⟨.ok "new-access", 1,
        some ⟨some [("agentsandbox:u@t",
          ⟨some "oauth", some "new-access", some "new-refresh",
           some 9000000, none, some "u@t", some "agentsandbox"⟩)]⟩⟩ := by
  have := C1_getToken_refresh
    { envKey := none
      configProfiles := [("agentsandbox:u@t", some "agentsandbox")]
      agentDir := some "/tmp/agent"
      store := ⟨some [("agentsandbox:u@t",
        ⟨some "oauth", some "old-access", some "refresh-token-abc",
         some 1000, none, some "u@t", some "agentsandbox"⟩)]⟩
      now := 2000000
      refreshOutcome := .ok ⟨"new-access", "new-refresh", 9000000⟩ }
    "agentsandbox:u@t" (some "agentsandbox")
    ⟨some "oauth", some "old-access", some "refresh-token-abc",
     some 1000, none, some "u@t", some "agentsandbox"⟩
    "refresh-token-abc" ⟨"new-access", "new-refresh", 9000000⟩
    (by decide) (by decide) (by decide) (by decide) (by decide) (by decide)
    (Or.inr (by intro e he; cases he; decide)) (by decide) (by decide) rfl
  simpa [storeAfterRefresh, rotate] using this

/-- C2 (claim): with the env override unset and the profile matched, a
record with a non-empty permanent `key` resolves to that key — whatever
the `access`/`expires` state — with no refresh call and no store write. -/
theorem C2_getToken_key_priority (env : GetTokenEnv) (pid : String)
    (extra : Option String) (k : String) (cred : CredRecord)
    (henv : truthyStr (env.envKey.map jsTrim) = false)
    (hfind : env.configProfiles.find? (fun e => e.2 == some "agentsandbox") =
      some (pid, extra))
    (hpid : pid ≠ "")
    (hdir : truthyStr env.agentDir = true)
    (hcred : env.store.profiles.bind (List.lookup pid) = some cred)
    (hkey : cred.key = some k) (hk : k ≠ "") :
    getToken env = ⟨.ok k, 0, none⟩ := by
  rw [getToken_cred env pid extra cred henv hfind hpid hdir hcred]
  simp [resolveCred, truthyStr, hkey, hk]

/-- Witness for C2: the key wins even over a still-fresh access token. -/
theorem C2_getToken_key_priority_witness :
    getToken
      { envKey := some ""
        configProfiles := [("agentsandbox:u@t", some "agentsandbox")]
        agentDir := some "/tmp/agent"
        store := ⟨some [("agentsandbox:u@t",
          ⟨some "oauth", some "fresh-access", some "rt",
           some 99999999, some "permanent-key-456", none, none⟩)]⟩
        now := 0
        refreshOutcome := .ok ⟨"x", "y", 1⟩ } =
      ⟨.ok "permanent-key-456", 0, none⟩ :=
  C2_getToken_key_priority _ "agentsandbox:u@t" (some "agentsandbox")
    "permanent-key-456"
    ⟨some "oauth", some "fresh-access", some "rt",
     some 99999999, some "permanent-key-456", none, none⟩
    (by decide) (by decide) (by decide) (by decide) (by decide) (by decide)
    (by decide)

/-- C8 (claim): whenever the trimmed `SANDBOX_API_KEY` value is
non-empty, `getToken` returns exactly that trimmed value, with no
refresh call and no store write, for every state of the config, store
and clock. -/
theorem C8_getToken_env_override (env : GetTokenEnv) (s : String)
    (henv : env.envKey = some s) (hs : jsTrim s ≠ "") :
    getToken env = ⟨.ok (jsTrim s), 0, none⟩ := by
  simp [getToken, henv, truthyStr, hs]

/-- Witness for C8: a padded env value is trimmed and returned verbatim,
bypassing a store whose record would otherwise fail resolution. -/
theorem C8_getToken_env_override_witness :
    getToken
      { envKey := some "  env-key-123  "
        configProfiles := []
        agentDir := none
        store := ⟨none⟩
        now := 0
        refreshOutcome := .error "never called" } =
      ⟨.ok "env-key-123", 0, none⟩ := by
  have := C8_getToken_env_override
    { envKey := some "  env-key-123  "
      configProfiles := []
      agentDir := none
      store := ⟨none⟩
      now := 0
      refreshOutcome := .error "never called" }
    "  env-key-123  " rfl (by decide)
  simpa [show jsTrim "  env-key-123  " = "env-key-123" from by decide]
    using this

/-- C9 (claim): with the env override unset and the profile matched, a
record with no key, no usable access token (absent, or `expires` absent,
or `now ≥ expires - 5min`), and no refresh token fails with the
all-tokens-expired error — whose message starts with "All tokens expired
and no refresh token available" — and nothing is written to disk. -/
theorem C9_getToken_all_expired (env : GetTokenEnv) (pid : String)
    (extra : Option String) (cred : CredRecord)
    (henv : truthyStr (env.envKey.map jsTrim) = false)
    (hfind : env.configProfiles.find? (fun e => e.2 == some "agentsandbox") =
      some (pid, extra))
    (hpid : pid ≠ "")
    (hdir : truthyStr env.agentDir = true)
    (hcred : env.store.profiles.bind (List.lookup pid) = some cred)
    (hkey : cred.key = none)
    (hacc : cred.access = none ∨ cred.expires = none ∨
      (∃ e, cred.expires = some e ∧ e - bufferMs ≤ env.now))
    (hrefresh : cred.refresh = none) :
    getToken env = ⟨.error .allExpired, 0, none⟩ ∧
    ("All tokens expired and no refresh token available").data.isPrefixOf
      (TokenError.allExpired.message).data = true := by
  refine ⟨?_, by decide⟩
  rw [getToken_cred env pid extra cred henv hfind hpid hdir hcred]
  have hacc2 : cred.access = none ∨
      (∀ e, cred.expires = some e → e - bufferMs ≤ env.now) := by
    rcases hacc with h | h | ⟨e, he, hle⟩
    · exact Or.inl h
    · exact Or.inr (by intro e hsome; rw [h] at hsome; cases hsome)
    · exact Or.inr (by intro x hsome; rw [he] at hsome; cases hsome; exact hle)
  rw [resolveCred.eq_def, stale_guard_false cred env.now hacc2]
  simp [hkey, truthyStr, hrefresh]

/-- Witness for C9: an expired record with no refresh token fails with
the all-expired error and leaves the store untouched. -/
theorem C9_getToken_all_expired_witness :
    getToken
      { envKey := none
        configProfiles := [("agentsandbox:u@t", some "agentsandbox")]
        agentDir := some "/tmp/agent"
        store := ⟨some [("agentsandbox:u@t",
          ⟨some "oauth", some "old-access", none, some 1000, none, none,
           some "agentsandbox"⟩)]⟩
        now := 2000000
        refreshOutcome := .error "never called" } =
      ⟨.error .allExpired, 0, none⟩ :=
  (C9_getToken_all_expired _ "agentsandbox:u@t" (some "agentsandbox")
    ⟨some "oauth", some "old-access", none, some 1000, none, none,
     some "agentsandbox"⟩
    (by decide) (by decide) (by decide) (by decide) (by decide) (by decide)
    (Or.inr (Or.inr ⟨1000, rfl, by decide⟩)) (by decide)).1

/-! ## Delete retry loop (`sandbox_destroy_session`, `sandbox_delete_file`)

Both tools run the same loop: up to 3 `DELETE` attempts through
`apiRequest`; an error message containing `"(404)"` is success
("already gone"); otherwise the first parenthesized three-digit group of
the message (the JS regex `\((\d{3})\)`) is parsed as the status, and the
attempt is retried after `500ms * 2^(attempt-1)` when the status is
`>= 500`, `429`, or unparseable; otherwise (or on the last attempt) the
error is rethrown. -/

/-- ASCII digit test (JS `\d`). -/
def isAsciiDigit (c : Char) : Bool := '0' ≤ c && c ≤ '9'

/-- First match of the JS regex `\((\d{3})\)` in a character list,
returned as the parsed number (`parseInt(statusMatch[1], 10)`); `none`
when there is no match. -/
def scanParenStatus : List Char → Option Nat
  | [] => none
  | ch :: rest =>
    match ch, rest with
    | '(', a :: b :: c :: ')' :: _ =>
      if isAsciiDigit a && isAsciiDigit b && isAsciiDigit c then
        some ((a.toNat - 48) * 100 + (b.toNat - 48) * 10 + (c.toNat - 48))
      else scanParenStatus rest
    | _, _ => scanParenStatus rest

/-- Characters `encodeURIComponent` leaves unescaped
(alphanumerics and `- _ . ! ~ * ' ( )`). -/
def uriUnreserved (c : Char) : Bool :=
  ('A' ≤ c && c ≤ 'Z') || ('a' ≤ c && c ≤ 'z') || ('0' ≤ c && c ≤ '9') ||
    c = '-' || c = '_' || c = '.' || c = '!' || c = '~' || c = '*' ||
    c.toNat = 39 || c = '(' || c = ')'

/-- Uppercase hexadecimal digits. -/
def hexDigitChars : List Char := "0123456789ABCDEF".data

/-- UTF-8 encoding of one character, as byte values. -/
def utf8Bytes (c : Char) : List Nat :=
  let n := c.toNat
  if n < 128 then [n]
  else if n < 2048 then [192 + n / 64, 128 + n % 64]
  else if n < 65536 then [224 + n / 4096, 128 + n / 64 % 64, 128 + n % 64]
  else [240 + n / 262144, 128 + n / 4096 % 64, 128 + n / 64 % 64, 128 + n % 64]

/-- `%XX` escape of one byte. -/
def pctEncode (b : Nat) : List Char :=
  ['%', hexDigitChars.getD (b / 16) '0', hexDigitChars.getD (b % 16) '0']

/-- JS `encodeURIComponent`: keep unreserved characters, percent-encode
the UTF-8 bytes of everything else. -/
def encodeURIComponent (s : String) : String :=
  ⟨(s.data.map fun c =>
      if uriUnreserved c then [c] else ((utf8Bytes c).map pctEncode).flatten).flatten⟩

/-- Terminal state of one delete-like tool call: a successful `DELETE`
(`details.ok = true` with the response data), the 404-as-success path
(`details.ok = true, already_gone = true`), or a thrown error. -/
inductive DeleteOutcome where
  | success (data : ApiResult) : DeleteOutcome
  | alreadyGone : DeleteOutcome
  | thrown (msg : String) : DeleteOutcome
deriving DecidableEq

/-- The `details.ok` flag reported for an outcome. -/
def DeleteOutcome.okFlag : DeleteOutcome → Bool
  | .thrown _ => false
  | _ => true

/-- Trace of one delete-like tool call: the outcome, how many `DELETE`
attempts were issued, and the sleeps (ms) performed between attempts. -/
structure DeleteTrace where
  outcome : DeleteOutcome
  attemptsMade : Nat
  sleepsMs : List Nat
deriving DecidableEq

/-- `maxAttempts` in `tools.ts`. -/
def maxAttempts : Nat := 3

/-- The retry loop body shared (verbatim) by `sandbox_destroy_session`
and `sandbox_delete_file`. `responses` supplies the HTTP response to
attempt number `attempt`; `fuel` counts the loop iterations left
(`maxAttempts - attempt + 1`), so the fuel-exhausted case is the
(unreachable for `maxAttempts ≥ 1`) `throw lastError` after the loop. -/
def retryDeleteAux (endpoint : String) (responses : Nat → HttpResponse)
    (lastError : Option String) (attempt : Nat) (sleeps : List Nat) :
    Nat → DeleteTrace
  | 0 => ⟨.thrown (lastError.getD ""), attempt - 1, sleeps⟩
  | fuel + 1 =>
    match apiRequest "DELETE" endpoint (responses attempt) with
    | .ok data => ⟨.success data, attempt, sleeps⟩
    | .error e =>
      if strIncludes e "(404)" then ⟨.alreadyGone, attempt, sleeps⟩
      else
        let statusMatch := scanParenStatus e.data
        let status := statusMatch.getD 0
        let retryable := decide (500 ≤ status) || status == 429 || statusMatch.isNone
        if !retryable || attempt == maxAttempts then ⟨.thrown e, attempt, sleeps⟩
        else retryDeleteAux endpoint responses (some e) (attempt + 1)
          (sleeps ++ [500 * 2 ^ (attempt - 1)]) fuel

/-- `sandbox_destroy_session.execute` (retry portion, `tools.ts`). -/
def sandbox_destroy_session (session_id : String)
    (responses : Nat → HttpResponse) : DeleteTrace :=
  retryDeleteAux ("/v1/sessions/" ++ encodeURIComponent session_id)
    responses none 1 [] maxAttempts

/-- `sandbox_delete_file.execute` (retry portion, `tools.ts`). -/
def sandbox_delete_file (file_id : String)
    (responses : Nat → HttpResponse) : DeleteTrace :=
  retryDeleteAux ("/v1/files/" ++ encodeURIComponent file_id)
    responses none 1 [] maxAttempts

/-- One unfolding step of the retry loop. -/
theorem retryDeleteAux_step (endpoint : String) (responses : Nat → HttpResponse)
    (lastError : Option String) (attempt fuel : Nat) (sleeps : List Nat) :
    retryDeleteAux endpoint responses lastError attempt sleeps (fuel + 1) =
      match apiRequest "DELETE" endpoint (responses attempt) with
      | .ok data => ⟨.success data, attempt, sleeps⟩
      | .error e =>
        if strIncludes e "(404)" then ⟨.alreadyGone, attempt, sleeps⟩
        else
          let statusMatch := scanParenStatus e.data
          let status := statusMatch.getD 0
          let retryable := decide (500 ≤ status) || status == 429 || statusMatch.isNone
          if !retryable || attempt == maxAttempts then ⟨.thrown e, attempt, sleeps⟩
          else retryDeleteAux endpoint responses (some e) (attempt + 1)
            (sleeps ++ [500 * 2 ^ (attempt - 1)]) fuel := rfl

/-- The error message produced for a 404 response always contains the
substring `"(404)"`, whatever the endpoint and body. -/
theorem strIncludes_apiErrorMsg_404 (m e b : String) :
    strIncludes (apiErrorMsg m e 404 b) "(404)" = true := by
  apply containsSeq_of_isInfix
  refine ⟨("API " ++ m ++ " " ++ e ++ " failed ").data, (": " ++ b).data, ?_⟩
  simp only [apiErrorMsg, String.data_append, List.append_assoc,
    show (toString (404 : Nat)) = "404" from rfl,
    show ("(404)" : String).data = ['(', '4', '0', '4', ')'] from rfl,
    show (" failed (" : String).data =
      [' ', 'f', 'a', 'i', 'l', 'e', 'd', ' ', '('] from rfl,
    show (" failed " : String).data =
      [' ', 'f', 'a', 'i', 'l', 'e', 'd', ' '] from rfl,
    show ("): " : String).data = [')', ':', ' '] from rfl,
    show (": " : String).data = [':', ' '] from rfl,
    show ("404" : String).data = ['4', '0', '4'] from rfl]
  simp

/-- A 404 response on the first attempt makes the retry loop return the
already-gone success immediately. -/
theorem retry_404_first (endpoint : String) (responses : Nat → HttpResponse)
    (h : (responses 1).status = 404) :
    retryDeleteAux endpoint responses none 1 [] maxAttempts =
      ⟨.alreadyGone, 1, []⟩ := by
  have hok : respOk (responses 1) = false := by simp [respOk, h]
  have herr : apiRequest "DELETE" endpoint (responses 1) =
      .error (apiErrorMsg "DELETE" endpoint 404 (responses 1).body) := by
    simp [apiRequest, hok, h]
  rw [show maxAttempts = 2 + 1 from rfl, retryDeleteAux_step, herr]
  simp [strIncludes_apiErrorMsg_404]

/-- A 2xx status never produces an `apiRequest` error. -/
theorem apiRequest_isOk (m e : String) (r : HttpResponse)
    (h : respOk r = true) : ∃ d, apiRequest m e r = .ok d := by
  simp only [apiRequest, h, Bool.not_true, Bool.false_eq_true, if_false]
  split
  · exact ⟨_, rfl⟩
  · split
    · exact ⟨_, rfl⟩
    · exact ⟨_, rfl⟩

/-- A 2xx response on the first attempt succeeds immediately. -/
theorem retry_ok_first (endpoint : String) (responses : Nat → HttpResponse)
    (h : respOk (responses 1) = true) :
    (retryDeleteAux endpoint responses none 1 [] maxAttempts).outcome.okFlag
      = true ∧
    (retryDeleteAux endpoint responses none 1 [] maxAttempts).attemptsMade
      = 1 := by
  rw [show maxAttempts = 2 + 1 from rfl, retryDeleteAux_step]
  obtain ⟨d, hd⟩ := apiRequest_isOk "DELETE" endpoint (responses 1) h
  rw [hd]
  exact ⟨rfl, rfl⟩

/-- C4 (claim): for both delete-like tools, a first `DELETE` attempt
answered with HTTP 404 yields the already-gone success immediately — one
attempt, no sleep, nothing thrown — so deleting the same session id or
file id twice (a 2xx the first time, a 404 the second) reports
`ok = true` both times, the second time via the 404-as-success path. -/
theorem C4_delete_404_idempotent (sid fid : String)
    (respFirst respSecond : Nat → HttpResponse)
    (hfirst : respOk (respFirst 1) = true)
    (hsecond : (respSecond 1).status = 404) :
    sandbox_destroy_session sid respSecond = ⟨.alreadyGone, 1, []⟩ ∧
    sandbox_delete_file fid respSecond = ⟨.alreadyGone, 1, []⟩ ∧
    (sandbox_destroy_session sid respFirst).outcome.okFlag = true ∧
    (sandbox_destroy_session sid respFirst).attemptsMade = 1 ∧
    (sandbox_delete_file fid respFirst).outcome.okFlag = true ∧
    (sandbox_delete_file fid respFirst).attemptsMade = 1 ∧
    DeleteOutcome.alreadyGone.okFlag = true := by
  refine ⟨retry_404_first _ _ hsecond, retry_404_first _ _ hsecond,
    (retry_ok_first _ _ hfirst).1, (retry_ok_first _ _ hfirst).2,
    (retry_ok_first _ _ hfirst).1, (retry_ok_first _ _ hfirst).2, rfl⟩

/-- Witness for C4: destroying session `s1` succeeds with a 200, then a
second destroy answered 404 reports the already-gone success; likewise
for file `f1`. -/
theorem C4_delete_404_idempotent_witness :
    sandbox_destroy_session "s1"
      (fun _ => ⟨404, some "text/plain", "Not Found"⟩) =
      ⟨.alreadyGone, 1, []⟩ ∧
    sandbox_delete_file "f1"
      (fun _ => ⟨404, some "text/plain", "Not Found"⟩) =
      ⟨.alreadyGone, 1, []⟩ ∧
    (sandbox_destroy_session "s1"
      (fun _ => ⟨200, some "application/json", "{}"⟩)).outcome.okFlag
      = true := by
  have := C4_delete_404_idempotent "s1" "f1"
    (fun _ => ⟨200, some "application/json", "{}"⟩)
    (fun _ => ⟨404, some "text/plain", "Not Found"⟩)
    (by decide) (by decide)
  exact ⟨this.1, this.2.1, this.2.2.1⟩

/-- A non-2xx status makes `apiRequest` throw the formatted message. -/
theorem apiRequest_error_of_not_ok (m e : String) (r : HttpResponse)
    (h : respOk r = false) :
    apiRequest m e r = .error (apiErrorMsg m e r.status r.body) := by
  simp [apiRequest, h]

/-- A failed attempt whose message lacks `"(404)"` and parses to a
retryable status (`≥ 500` or `429`), before the last attempt, sleeps
`500 * 2^(attempt-1)` ms and recurses. -/
theorem retry_error_retryable (endpoint : String) (resp : Nat → HttpResponse)
    (le : Option String) (attempt fuel : Nat) (sleeps : List Nat)
    (msg : String) (st : Nat)
    (herr : apiRequest "DELETE" endpoint (resp attempt) = .error msg)
    (hinc : strIncludes msg "(404)" = false)
    (hscan : scanParenStatus msg.data = some st)
    (hretry : 500 ≤ st ∨ st = 429)
    (hatt : attempt ≠ maxAttempts) :
    retryDeleteAux endpoint resp le attempt sleeps (fuel + 1) =
      retryDeleteAux endpoint resp (some msg) (attempt + 1)
        (sleeps ++ [500 * 2 ^ (attempt - 1)]) fuel := by
  rw [retryDeleteAux_step, herr]
  simp only [hinc, Bool.false_eq_true, if_false, hscan]
  rcases hretry with h | h <;> simp [h, hatt]

/-- A failed attempt whose parsed status is a non-retryable 4xx, or any
failure on the last attempt, rethrows immediately. -/
theorem retry_error_throw (endpoint : String) (resp : Nat → HttpResponse)
    (le : Option String) (attempt fuel : Nat) (sleeps : List Nat)
    (msg : String) (st : Nat)
    (herr : apiRequest "DELETE" endpoint (resp attempt) = .error msg)
    (hinc : strIncludes msg "(404)" = false)
    (hscan : scanParenStatus msg.data = some st)
    (hstop : (¬ 500 ≤ st ∧ st ≠ 429) ∨ attempt = maxAttempts) :
    retryDeleteAux endpoint resp le attempt sleeps (fuel + 1) =
      ⟨.thrown msg, attempt, sleeps⟩ := by
  rw [retryDeleteAux_step, herr]
  simp only [hinc, Bool.false_eq_true, if_false, hscan]
  rcases hstop with ⟨h1, h2⟩ | h
  · simp [h1, h2]
  · simp [h]

/-- A 2xx response at any attempt succeeds there with the data
`apiRequest` produced. -/
theorem retry_ok_at (endpoint : String) (resp : Nat → HttpResponse)
    (le : Option String) (attempt fuel : Nat) (sleeps : List Nat)
    (h : respOk (resp attempt) = true) :
    ∃ d, retryDeleteAux endpoint resp le attempt sleeps (fuel + 1) =
      ⟨.success d, attempt, sleeps⟩ := by
  obtain ⟨d, hd⟩ := apiRequest_isOk "DELETE" endpoint (resp attempt) h
  exact ⟨d, by rw [retryDeleteAux_step, hd]⟩

/-- C3 counterexample: HTTP 429 is a 4xx status other than 404, yet the
tool retries it — three attempts with sleeps of 500ms and 1000ms — so
"any 4xx status other than 404 fails immediately with no retry" is false
as stated. -/
theorem C3_counterexample_429_retried :
    sandbox_destroy_session "s1"
      (fun _ => ⟨429, some "text/plain", "Rate limited"⟩) =
      ⟨.thrown "API DELETE /v1/sessions/s1 failed (429): Rate limited",
        3, [500, 1000]⟩ ∧ (3 : Nat) ≠ 1 := by
  exact ⟨rfl, by decide⟩

/-- C3 (amended): for the delete-like retry loop — run by both
`sandbox_destroy_session` and `sandbox_delete_file`, as the last two
conjuncts record — provided each failure message contains no spurious
`"(404)"` and its first parenthesized three-digit group is the true
status: three 500s make exactly 3 attempts, sleep `500·2⁰` then `500·2¹`
ms, and surface the last error; 500, 500, 2xx succeeds on the 3rd
attempt; and a 4xx status other than 404 **and 429** fails immediately
with no retry. -/
theorem C3_retry_policy_amended (endpoint : String)
    (resp500 respRec resp4xx : Nat → HttpResponse) (s : Nat)
    (ha1 : (resp500 1).status = 500) (ha2 : (resp500 2).status = 500)
    (ha3 : (resp500 3).status = 500)
    (hac1 : strIncludes (apiErrorMsg "DELETE" endpoint 500 (resp500 1).body)
      "(404)" = false)
    (hac2 : strIncludes (apiErrorMsg "DELETE" endpoint 500 (resp500 2).body)
      "(404)" = false)
    (hac3 : strIncludes (apiErrorMsg "DELETE" endpoint 500 (resp500 3).body)
      "(404)" = false)
    (hap1 : scanParenStatus
      (apiErrorMsg "DELETE" endpoint 500 (resp500 1).body).data = some 500)
    (hap2 : scanParenStatus
      (apiErrorMsg "DELETE" endpoint 500 (resp500 2).body).data = some 500)
    (hap3 : scanParenStatus
      (apiErrorMsg "DELETE" endpoint 500 (resp500 3).body).data = some 500)
    (hb1 : (respRec 1).status = 500) (hb2 : (respRec 2).status = 500)
    (hbc1 : strIncludes (apiErrorMsg "DELETE" endpoint 500 (respRec 1).body)
      "(404)" = false)
    (hbc2 : strIncludes (apiErrorMsg "DELETE" endpoint 500 (respRec 2).body)
      "(404)" = false)
    (hbp1 : scanParenStatus
      (apiErrorMsg "DELETE" endpoint 500 (respRec 1).body).data = some 500)
    (hbp2 : scanParenStatus
      (apiErrorMsg "DELETE" endpoint 500 (respRec 2).body).data = some 500)
    (hb3 : respOk (respRec 3) = true)
    (hd1 : (resp4xx 1).status = s) (hs400 : 400 ≤ s) (hs499 : s ≤ 499)
    (hs404 : s ≠ 404) (hs429 : s ≠ 429)
    (hdc : strIncludes (apiErrorMsg "DELETE" endpoint s (resp4xx 1).body)
      "(404)" = false)
    (hdp : scanParenStatus
      (apiErrorMsg "DELETE" endpoint s (resp4xx 1).body).data = some s) :
    retryDeleteAux endpoint resp500 none 1 [] maxAttempts =
      ⟨.thrown (apiErrorMsg "DELETE" endpoint 500 (resp500 3).body), 3,
        [500 * 2 ^ 0, 500 * 2 ^ 1]⟩ ∧
    (∃ d, retryDeleteAux endpoint respRec none 1 [] maxAttempts =
      ⟨.success d, 3, [500 * 2 ^ 0, 500 * 2 ^ 1]⟩) ∧
    retryDeleteAux endpoint resp4xx none 1 [] maxAttempts =
      ⟨.thrown (apiErrorMsg "DELETE" endpoint s (resp4xx 1).body), 1, []⟩ ∧
    (∀ sid r, sandbox_destroy_session sid r =
      retryDeleteAux ("/v1/sessions/" ++ encodeURIComponent sid) r
        none 1 [] maxAttempts) ∧
    (∀ fid r, sandbox_delete_file fid r =
      retryDeleteAux ("/v1/files/" ++ encodeURIComponent fid) r
        none 1 [] maxAttempts) := by
  have e1 : apiRequest "DELETE" endpoint (resp500 1) =
      .error (apiErrorMsg "DELETE" endpoint 500 (resp500 1).body) := by
    have := apiRequest_error_of_not_ok "DELETE" endpoint (resp500 1)
      (by simp [respOk, ha1])
    rwa [ha1] at this
  have e2 : apiRequest "DELETE" endpoint (resp500 2) =
      .error (apiErrorMsg "DELETE" endpoint 500 (resp500 2).body) := by
    have := apiRequest_error_of_not_ok "DELETE" endpoint (resp500 2)
      (by simp [respOk, ha2])
    rwa [ha2] at this
  have e3 : apiRequest "DELETE" endpoint (resp500 3) =
      .error (apiErrorMsg "DELETE" endpoint 500 (resp500 3).body) := by
    have := apiRequest_error_of_not_ok "DELETE" endpoint (resp500 3)
      (by simp [respOk, ha3])
    rwa [ha3] at this
  have f1 : apiRequest "DELETE" endpoint (respRec 1) =
      .error (apiErrorMsg "DELETE" endpoint 500 (respRec 1).body) := by
    have := apiRequest_error_of_not_ok "DELETE" endpoint (respRec 1)
      (by simp [respOk, hb1])
    rwa [hb1] at this
  have f2 : apiRequest "DELETE" endpoint (respRec 2) =
      .error (apiErrorMsg "DELETE" endpoint 500 (respRec 2).body) := by
    have := apiRequest_error_of_not_ok "DELETE" endpoint (respRec 2)
      (by simp [respOk, hb2])
    rwa [hb2] at this
  have g1 : apiRequest "DELETE" endpoint (resp4xx 1) =
      .error (apiErrorMsg "DELETE" endpoint s (resp4xx 1).body) := by
    have := apiRequest_error_of_not_ok "DELETE" endpoint (resp4xx 1)
      (by simp [respOk, hd1]; omega)
    rwa [hd1] at this
  refine ⟨?_, ?_, ?_, fun sid r => rfl, fun fid r => rfl⟩
  · exact
      (retry_error_retryable endpoint resp500 none 1 (1 + 1) [] _ 500
        e1 hac1 hap1 (Or.inl le_rfl) (by decide)).trans
      ((retry_error_retryable endpoint resp500 (some _) 2 (0 + 1)
        [500 * 2 ^ 0] _ 500 e2 hac2 hap2 (Or.inl le_rfl) (by decide)).trans
      (retry_error_throw endpoint resp500 (some _) 3 0
        [500 * 2 ^ 0, 500 * 2 ^ 1] _ 500 e3 hac3 hap3 (Or.inr rfl)))
  · obtain ⟨d, hd⟩ := retry_ok_at endpoint respRec (some _) 3 0
      [500 * 2 ^ 0, 500 * 2 ^ 1] hb3
    exact ⟨d,
      (retry_error_retryable endpoint respRec none 1 (1 + 1) [] _ 500
        f1 hbc1 hbp1 (Or.inl le_rfl) (by decide)).trans
      ((retry_error_retryable endpoint respRec (some _) 2 (0 + 1)
        [500 * 2 ^ 0] _ 500 f2 hbc2 hbp2 (Or.inl le_rfl) (by decide)).trans
      hd)⟩
  · exact retry_error_throw endpoint resp4xx none 1 (1 + 1) [] _ s
      g1 hdc hdp (Or.inl ⟨by omega, hs429⟩)

/-- Witness for C3 (amended): concrete runs — three 500s against session
`s1` (3 attempts, sleeps 500 and 1000 ms, last error surfaced); 500,
500, 200 against session `s1` (success on the 3rd attempt); a 400
against file `f1` (immediate failure, single attempt). -/
theorem C3_retry_policy_amended_witness :
    sandbox_destroy_session "s1"
      (fun _ => ⟨500, some "text/plain", "Server Error"⟩) =
      ⟨.thrown "API DELETE /v1/sessions/s1 failed (500): Server Error",
        3, [500, 1000]⟩ ∧
    (∃ d, sandbox_destroy_session "s1"
      (fun k => if k == 3 then ⟨200, some "application/json", "{}"⟩
        else ⟨500, some "text/plain", "Server Error"⟩) =
      ⟨.success d, 3, [500, 1000]⟩) ∧
    sandbox_delete_file "f1"
      (fun _ => ⟨400, some "text/plain", "Bad Request"⟩) =
      ⟨.thrown "API DELETE /v1/files/f1 failed (400): Bad Request",
        1, []⟩ := by
  have H1 := C3_retry_policy_amended "/v1/sessions/s1"
    (fun _ => ⟨500, some "text/plain", "Server Error"⟩)
    (fun k => if k == 3 then ⟨200, some "application/json", "{}"⟩
      else ⟨500, some "text/plain", "Server Error"⟩)
    (fun _ => ⟨400, some "text/plain", "Bad Request"⟩) 400
    (by decide) (by decide) (by decide) (by decide) (by decide) (by decide)
    (by decide) (by decide) (by decide) (by decide) (by decide) (by decide)
    (by decide) (by decide) (by decide) (by decide) (by decide) (by decide)
    (by decide) (by decide) (by decide) (by decide) (by decide)
  have H2 := C3_retry_policy_amended "/v1/files/f1"
    (fun _ => ⟨500, some "text/plain", "Server Error"⟩)
    (fun k => if k == 3 then ⟨200, some "application/json", "{}"⟩
      else ⟨500, some "text/plain", "Server Error"⟩)
    (fun _ => ⟨400, some "text/plain", "Bad Request"⟩) 400
    (by decide) (by decide) (by decide) (by decide) (by decide) (by decide)
    (by decide) (by decide) (by decide) (by decide) (by decide) (by decide)
    (by decide) (by decide) (by decide) (by decide) (by decide) (by decide)
    (by decide) (by decide) (by decide) (by decide) (by decide)
  exact ⟨H1.1, H1.2.1, H2.2.2.1⟩

/-- C5 (claim): failure classification matches on the text of the error
message, not a structured status: a failed `DELETE` whose HTTP status is
500 or 503 — not 404 — is nevertheless reported as the already-gone
success when `"(404)"` occurs in the response body, or when it occurs in
the session/file id (parentheses and digits survive
`encodeURIComponent` into the path embedded in the message). -/
theorem C5_text_match_false_positive :
    sandbox_destroy_session "s1"
      (fun _ => ⟨500, some "text/plain", "boom (404) gone"⟩) =
      ⟨.alreadyGone, 1, []⟩ ∧
    sandbox_destroy_session "s(404)"
      (fun _ => ⟨500, some "text/plain", "Server Error"⟩) =
      ⟨.alreadyGone, 1, []⟩ ∧
    sandbox_delete_file "f(404)"
      (fun _ => ⟨503, some "text/plain", "Service Unavailable"⟩) =
      ⟨.alreadyGone, 1, []⟩ := by
  exact ⟨rfl, rfl, rfl⟩

/-! ## OAuth PKCE flow (`oauth.ts`)

`runOAuthFlow` up to the point a token-exchange POST is (or is not)
issued. The crypto, URL parsing and HTTP listener are external effects:
the model takes the generated `state`/`verifier` and the *parsed*
callback of each input channel (the remote prompt, the local listener,
and the fallback prompt) as inputs, and returns either the state-mismatch
error or the exchange POST that `exchangeCode` sends. -/

/-- `CLIENT_ID` in `oauth.ts`. -/
def CLIENT_ID : String := "openclaw-plugin-client"

/-- `CALLBACK_PORT` in `oauth.ts`. -/
def CALLBACK_PORT : Nat := 51199

/-- `REDIRECT_URI` in `oauth.ts`. -/
def REDIRECT_URI : String :=
  "http://localhost:" ++ toString CALLBACK_PORT ++ "/callback"

/-- Parsed callback data (`parseCallbackInput` / listener): the
authorization code and the returned `state` (`none` when the query
carried no `state` parameter). -/
structure Callback where
  code : String
  state : Option String
deriving DecidableEq

/-- Outcome of `listenForCallback`: the parsed single redirect request,
or any failure (listen error, no code, ...) — the `try`/`catch` in
`runOAuthFlow` treats every throw from the `try` block alike. -/
inductive LocalListen where
  | ok (cb : Callback) : LocalListen
  | failed : LocalListen

/-- The form body of the token-exchange POST sent by `exchangeCode`. -/
structure ExchangePost where
  grant_type : String
  code : String
  redirect_uri : String
  client_id : String
  code_verifier : String
deriving DecidableEq

/-- `exchangeCode` (`oauth.ts`), up to the POST it issues. -/
def exchangeCode (code verifier : String) : ExchangePost :=
  ⟨"authorization_code", code, REDIRECT_URI, CLIENT_ID, verifier⟩

/-- The guard `parsed.state && parsed.state !== state`: an empty
returned state is falsy and skips the comparison. -/
def stateMismatch (cb : Callback) (state : String) : Bool :=
  match cb.state with
  | none => false
  | some s => s ≠ "" && s ≠ state

/-- The check-then-exchange block `runOAuthFlow` repeats verbatim for
each input channel. -/
def checkAndExchange (state verifier : String) (cb : Callback) :
    Except String ExchangePost :=
  if stateMismatch cb state then .error "OAuth state mismatch"
  else .ok (exchangeCode cb.code verifier)

/-- `runOAuthFlow` (`oauth.ts`). Remote mode checks and exchanges the
prompted callback. Local mode runs the listener inside `try`/`catch`:
a listener failure falls back to the prompt — and so does the
state-mismatch `throw`, because the catch-all around the `try` block
swallows it (only the `return exchangeCode(...)` promise escapes the
catch, not the synchronous throw). -/
def runOAuthFlow (state verifier : String) (isRemote : Bool)
    (promptCb : Callback) (listen : LocalListen) (fallbackCb : Callback) :
    Except String ExchangePost :=
  if isRemote then
    checkAndExchange state verifier promptCb
  else
    match listen with
    | .ok cb =>
      if stateMismatch cb state then
        checkAndExchange state verifier fallbackCb
      else .ok (exchangeCode cb.code verifier)
    | .failed => checkAndExchange state verifier fallbackCb

/-- C6 at the failing input: in local mode a listener callback whose
state differs from the generated one does **not** fail the flow — the
mismatch throw is swallowed by the catch-all, the flow falls back to the
prompt, and the prompted code is exchanged (so a token-exchange POST is
sent). Remote mode and the fallback prompt itself do enforce the check,
and a callback carrying no state proceeds to the exchange. -/
theorem C6_local_state_mismatch_swallowed :
    runOAuthFlow "goodstate" "ver" false ⟨"unused", none⟩
      (.ok ⟨"evil-code", some "wrong-state"⟩) ⟨"fallback-code", none⟩ =
      .ok (exchangeCode "fallback-code" "ver") ∧
    runOAuthFlow "goodstate" "ver" false ⟨"unused", none⟩
      (.ok ⟨"evil-code", some "wrong-state"⟩) ⟨"fallback-code", none⟩ ≠
      .error "OAuth state mismatch" ∧
    runOAuthFlow "goodstate" "ver" true ⟨"code", some "wrong-state"⟩
      .failed ⟨"unused", none⟩ = .error "OAuth state mismatch" ∧
    runOAuthFlow "goodstate" "ver" false ⟨"unused", none⟩ .failed
      ⟨"code", some "wrong-state"⟩ = .error "OAuth state mismatch" ∧
    runOAuthFlow "goodstate" "ver" true ⟨"code-only", none⟩ .failed
      ⟨"unused", none⟩ = .ok (exchangeCode "code-only" "ver") :=
  ⟨rfl, fun h => Except.noConfusion h, rfl, rfl, rfl⟩

/-! ## Base64 upload validation (`apiUploadFile`)

`apiUploadFile` validates `file_data` against `^[A-Za-z0-9+/]*={0,2}$`
and then decodes it with `Buffer.from(fileData, "base64")`. The Node
codec is modelled byte-exactly: the decoder drops non-alphabet
characters (including the padding `=`) and converts the 6-bit groups,
discarding a trailing lone 6-bit unit; the encoder is standard RFC 4648
with padding. -/

/-- The base64 alphabet in index order. -/
def base64Alphabet : List Char :=
  "ABCDEFGHIJKLMNOPQRSTUVWXYZabcdefghijklmnopqrstuvwxyz0123456789+/".data

/-- Membership in the base64 alphabet (`[A-Za-z0-9+/]`). -/
def isBase64Char (c : Char) : Bool :=
  ('A' ≤ c && c ≤ 'Z') || ('a' ≤ c && c ≤ 'z') || ('0' ≤ c && c ≤ '9') ||
    c = '+' || c = '/'

/-- The 6-bit value of a base64 alphabet character. -/
def b64Val (c : Char) : Nat :=
  if 'A' ≤ c && c ≤ 'Z' then c.toNat - 65
  else if 'a' ≤ c && c ≤ 'z' then c.toNat - 97 + 26
  else if '0' ≤ c && c ≤ '9' then c.toNat - 48 + 52
  else if c = '+' then 62
  else 63

/-- The alphabet character for a 6-bit value. -/
def b64Char (v : Nat) : Char := base64Alphabet.getD v 'A'

/-- RFC 4648 base64 encoding of a byte list, with padding
(`Buffer.prototype.toString("base64")`). -/
def encodeChunks : List Nat → List Char
  | [] => []
  | [a] => [b64Char (a / 4), b64Char (a % 4 * 16), '=', '=']
  | [a, b] =>
    [b64Char (a / 4), b64Char (a % 4 * 16 + b / 16), b64Char (b % 16 * 4), '=']
  | a :: b :: c :: rest =>
    b64Char (a / 4) :: b64Char (a % 4 * 16 + b / 16) ::
      b64Char (b % 16 * 4 + c / 64) :: b64Char (c % 64) :: encodeChunks rest

/-- String-level encoder. -/
def base64Encode (bytes : List Nat) : String := ⟨encodeChunks bytes⟩

/-- Regrouping 6-bit values into bytes: 4 values give 3 bytes, a
trailing 3 give 2, a trailing 2 give 1, a trailing 1 is dropped. -/
def decodeVals : List Nat → List Nat
  | a :: b :: c :: d :: rest =>
    (a * 4 + b / 16) :: (b % 16 * 16 + c / 4) :: (c % 4 * 64 + d) ::
      decodeVals rest
  | [a, b] => [a * 4 + b / 16]
  | [a, b, c] => [a * 4 + b / 16, b % 16 * 16 + c / 4]
  | _ => []

/-- Node's forgiving base64 decoder (`Buffer.from(s, "base64")`):
non-alphabet characters (`=` included) are skipped, then the 6-bit
values are regrouped into bytes. -/
def base64Decode (s : String) : List Nat :=
  decodeVals ((s.data.filter isBase64Char).map b64Val)

/-- The validation regex `^[A-Za-z0-9+/]*={0,2}$` as a decidable test:
after the maximal alphabet prefix, at most two `=` may remain. -/
def base64RegexTest (s : String) : Bool :=
  let rest := s.data.dropWhile isBase64Char
  rest == [] || rest == ['='] || rest == ['=', '=']

/-- `apiUploadFile` (`tools.ts`) up to the network call: the regex
validation, then the decode of the payload into the bytes that form the
multipart body; a payload rejected by the regex throws before any
request is issued. -/
def apiUploadFile (fileData : String) : Except String (List Nat) :=
  if !base64RegexTest fileData then
    .error "Invalid base64 encoding in file_data"
  else
    .ok (base64Decode fileData)

/-- Alphabet characters pass the alphabet test. -/
theorem isBase64Char_b64Char : ∀ v, v < 64 → isBase64Char (b64Char v) = true := by
  decide

/-- `b64Val` inverts `b64Char` on 6-bit values. -/
theorem b64Val_b64Char : ∀ v, v < 64 → b64Val (b64Char v) = v := by
  decide

/-- `=` is not an alphabet character. -/
theorem isBase64Char_eq_sign : isBase64Char '=' = false := by decide

/-- Decoding inverts encoding, bounded-length version for the
induction. -/
theorem decodeVals_encodeChunks (n : Nat) : ∀ (l : List Nat),
    l.length ≤ n → (∀ b ∈ l, b < 256) →
    decodeVals (((encodeChunks l).filter isBase64Char).map b64Val) = l := by
  induction n with
  | zero =>
    intro l hl _
    rcases l with _ | ⟨a, t⟩
    · simp [encodeChunks, decodeVals]
    · simp at hl
  | succ n ih =>
    intro l hl hb
    rcases l with _ | ⟨a, _ | ⟨b, _ | ⟨c, rest⟩⟩⟩
    · simp [encodeChunks, decodeVals]
    · have ha : a < 256 := hb a (by simp)
      have k1 := isBase64Char_b64Char (a / 4) (by omega)
      have k2 := isBase64Char_b64Char (a % 4 * 16) (by omega)
      have v1 := b64Val_b64Char (a / 4) (by omega)
      have v2 := b64Val_b64Char (a % 4 * 16) (by omega)
      simp [encodeChunks, List.filter, k1, k2, isBase64Char_eq_sign,
        v1, v2, decodeVals]
      omega
    · have ha : a < 256 := hb a (by simp)
      have hbb : b < 256 := hb b (by simp)
      have k1 := isBase64Char_b64Char (a / 4) (by omega)
      have k2 := isBase64Char_b64Char (a % 4 * 16 + b / 16) (by omega)
      have k3 := isBase64Char_b64Char (b % 16 * 4) (by omega)
      have v1 := b64Val_b64Char (a / 4) (by omega)
      have v2 := b64Val_b64Char (a % 4 * 16 + b / 16) (by omega)
      have v3 := b64Val_b64Char (b % 16 * 4) (by omega)
      simp [encodeChunks, List.filter, k1, k2, k3, isBase64Char_eq_sign,
        v1, v2, v3, decodeVals]
      constructor <;> omega
    · have ha : a < 256 := hb a (by simp)
      have hbb : b < 256 := hb b (by simp)
      have hc : c < 256 := hb c (by simp)
      have hrest : ∀ x ∈ rest, x < 256 := fun x hx => hb x (by simp [hx])
      have hlen : rest.length ≤ n := by simp at hl; omega
      have k1 := isBase64Char_b64Char (a / 4) (by omega)
      have k2 := isBase64Char_b64Char (a % 4 * 16 + b / 16) (by omega)
      have k3 := isBase64Char_b64Char (b % 16 * 4 + c / 64) (by omega)
      have k4 := isBase64Char_b64Char (c % 64) (by omega)
      have v1 := b64Val_b64Char (a / 4) (by omega)
      have v2 := b64Val_b64Char (a % 4 * 16 + b / 16) (by omega)
      have v3 := b64Val_b64Char (b % 16 * 4 + c / 64) (by omega)
      have v4 := b64Val_b64Char (c % 64) (by omega)
      simp [encodeChunks, List.filter, k1, k2, k3, k4, v1, v2, v3, v4,
        decodeVals, ih rest hlen hrest]
      refine ⟨by omega, by omega, by omega⟩

/-- Decoding inverts encoding on every byte list. -/
theorem base64Decode_base64Encode (l : List Nat) (h : ∀ b ∈ l, b < 256) :
    base64Decode (base64Encode l) = l :=
  decodeVals_encodeChunks l.length l le_rfl h

/-- C10 counterexample: `"QQ"` is accepted by the validation regex, but
decoding and re-encoding it yields `"QQ=="`, not the original payload —
so re-encoding does not reproduce every regex-accepted string. (`"QQ"`
decodes to the single byte 65.) -/
theorem C10_counterexample_roundtrip_QQ :
    base64RegexTest "QQ" = true ∧
    apiUploadFile "QQ" = .ok [65] ∧
    base64Encode (base64Decode "QQ") = "QQ==" ∧
    "QQ==" ≠ "QQ" := by
  refine ⟨by decide, rfl, by decide, by decide⟩

/-- C10 (amended): the byte-to-string round trip holds in the
decode-of-encode direction — for every byte sequence, encoding and then
decoding reproduces the bytes exactly (hence re-encoding a decoded
payload reproduces it for payloads in the image of the encoder); in
particular `[0x00, 0x01, 0x02, 0xFF]` encodes to `"AAEC/w=="` and
decodes back identically; and a `file_data` rejected by the regex makes
`apiUploadFile` throw the invalid-base64 error before any network
request. -/
theorem C10_base64_roundtrip_amended :
    (∀ l : List Nat, (∀ b ∈ l, b < 256) →
      base64Decode (base64Encode l) = l) ∧
    base64Encode [0, 1, 2, 255] = "AAEC/w==" ∧
    base64Decode "AAEC/w==" = [0, 1, 2, 255] ∧
    apiUploadFile "AAEC/w==" = .ok [0, 1, 2, 255] ∧
    (∀ s, base64RegexTest s = false →
      apiUploadFile s = .error "Invalid base64 encoding in file_data") := by
  refine ⟨base64Decode_base64Encode, by decide, by decide, rfl, ?_⟩
  intro s hs
  simp [apiUploadFile, hs]

/-- Witness for C10 (amended) at concrete inputs: the example bytes
round-trip, and the regex-rejected string `"=a"` is refused before any
request. -/
theorem C10_base64_roundtrip_amended_witness :
    base64Decode (base64Encode [0, 1, 2, 255]) = [0, 1, 2, 255] ∧
    apiUploadFile "=a" = .error "Invalid base64 encoding in file_data" :=
  ⟨C10_base64_roundtrip_amended.1 [0, 1, 2, 255] (by decide),
   C10_base64_roundtrip_amended.2.2.2.2 "=a" (by decide)⟩

end AgentSandbox
